import Mathlib

/-!
Verification of the dash-rs indexed-format serializer
(src/serde/ser/indexed.rs), the response decoders (src/response.rs)
and the user request rendering (src/request/mod.rs, src/request/user.rs).

The serializer is embedded as an explicit state machine over the output
sink (a byte/char buffer that never fails, matching the Vec<u8> sinks the
crate actually uses); the serde value space is embedded as the inductive
type GJField, one constructor per value shape the format supports, plus one
constructor family for the shapes the serializer rejects as unsupported.
-/

/-- Decimal digit characters; digitChar k is the ASCII digit for k < 10. -/
def digitChar (k : Nat) : Char :=
  "0123456789".toList.getD k '0'

/-- Auxiliary fuel-driven decimal printer for natural numbers
(the decimal ASCII form the itoa crate produces: no leading zeros). -/
def natDigitsAux : Nat → Nat → List Char
  | 0, _ => []
  | fuel + 1, n =>
    if n < 10 then [digitChar n]
    else natDigitsAux fuel (n / 10) ++ [digitChar (n % 10)]

/-- Decimal ASCII digits of a natural number, most significant first. -/
def natDigits (n : Nat) : List Char :=
  natDigitsAux (n + 1) n

/-- Decimal ASCII form of an integer: minus sign for negatives, then the
digits of the absolute value (the itoa Buffer::format output). -/
def intRepr (n : Int) : List Char :=
  (if n < 0 then ['-'] else []) ++ natDigits n.natAbs

/-- Fractional decimal digits of num/den (with num < den), produced by
repeated multiplication by ten; the fuel bounds the digit count and is
always sufficient for the dyadic values an IEEE float can hold. -/
def fracDigits (den : Nat) : Nat → Nat → List Char
  | 0, _ => []
  | _ + 1, 0 => []
  | fuel + 1, num => digitChar (num * 10 / den) :: fracDigits den fuel (num * 10 % den)

/-- Modelled from the spec: the platform's standard numeric-to-text
conversion used by serialize_f32/serialize_f64 (Rust's float Display,
which the source deliberately prefers over dtoa/ryu). The float value is
a dyadic rational m / 2 ^ e; a value with zero fractional part renders
with no fractional separator, a nonzero fractional part renders as a
point followed by the exact fractional digits with no trailing zeros. -/
def rustDisplayDyadic (m : Int) (e : Nat) : List Char :=
  (if m < 0 then ['-'] else []) ++ natDigits (m.natAbs / 2 ^ e) ++
    (match fracDigits (2 ^ e) e (m.natAbs % 2 ^ e) with
     | [] => []
     | ds => '.' :: ds)

/-- URL_SAFE base64 alphabet (A-Z, a-z, 0-9, minus, underscore). -/
def b64Char (n : Nat) : Char :=
  "ABCDEFGHIJKLMNOPQRSTUVWXYZabcdefghijklmnopqrstuvwxyz0123456789-_".toList.getD n 'A'

/-- URL-safe base64 with padding, as produced by the base64 crate's
URL_SAFE engine used in serialize_bytes. Input bytes are naturals < 256. -/
def base64UrlSafe : List Nat → List Char
  | [] => []
  | [a] => [b64Char (a / 4), b64Char (a % 4 * 16), '=', '=']
  | [a, b] => [b64Char (a / 4), b64Char (a % 4 * 16 + b / 16), b64Char (b % 16 * 4), '=']
  | a :: b :: c :: rest =>
    b64Char (a / 4) :: b64Char (a % 4 * 16 + b / 16) :: b64Char (b % 16 * 4 + c / 64) ::
      b64Char (c % 64) :: base64UrlSafe rest

/-- The serializer error type of src/serde/ser (the only variant the
infallible char-buffer sink can produce is Unsupported, carrying the
name of the rejected serialize method). -/
inductive SerError where
  | Unsupported (name : String)
  | Custom (msg : String)
deriving DecidableEq, Repr

/-- The shapes the indexed format cannot represent; serde would reach
them through the correspondingly named serializer methods. -/
inductive UnsupportedKind where
  | unitK
  | unitStructK
  | unitVariantK
  | newtypeStructK
  | newtypeVariantK
  | seqK
  | tupleK
  | tupleStructK
  | tupleVariantK
  | mapK
  | structVariantK
  | collectStrK
deriving DecidableEq, Repr

/-- The serde value space the indexed format supports, one constructor
per scalar shape of the Scalar Codec (floats carried as the dyadic
rational m / 2 ^ e an IEEE value denotes; bytes as naturals < 256),
plus the rejected shapes. -/
inductive GJField where
  | bool (b : Bool)
  | int (n : Int)
  | float (m : Int) (e : Nat)
  | char (c : Char)
  | str (v : List Char)
  | bytes (v : List Nat)
  | none
  | some (f : GJField)
  | unsupported (k : UnsupportedKind)
deriving DecidableEq, Repr

/-- The IndexedSerializer state: the delimiter chosen at construction,
the output sink written so far, the map_like (keyed-mode) flag, and the
is_start flag recording whether something has been serialized already. -/
structure SState where
  delimiter : List Char
  output : List Char
  map_like : Bool
  is_start : Bool
deriving DecidableEq, Repr

/-- IndexedSerializer::new with an empty sink. -/
def newSerializer (delimiter : List Char) (map_like : Bool) : SState :=
  ⟨delimiter, [], map_like, true⟩

/-- IndexedSerializer::append: prepend the delimiter unless this is the
first thing serialized, then write the given text. -/
def append (s : SState) (v : List Char) : SState :=
  if s.is_start then
    { s with is_start := false, output := s.output ++ v }
  else
    { s with output := s.output ++ s.delimiter ++ v }

/-- IndexedSerializer::append_integer (itoa formatting plus the same
delimiter handling as append). -/
def append_integer (s : SState) (n : Int) : SState :=
  append s (intRepr n)

/-- IndexedSerializer::append_display (Display formatting plus the same
delimiter handling as append); the already formatted text is passed in. -/
def append_display (s : SState) (text : List Char) : SState :=
  append s text

def serialize_bool (s : SState) (v : Bool) : SState × Except SerError Unit :=
  (append s (if v then ['1'] else ['0']), .ok ())

/-- All eight integer serializers (i8..i64, u8..u64) delegate to
append_integer; the embedding carries the mathematical integer value. -/
def serialize_i64 (s : SState) (v : Int) : SState × Except SerError Unit :=
  (append_integer s v, .ok ())

def serialize_f32 (s : SState) (m : Int) (e : Nat) : SState × Except SerError Unit :=
  (append_display s (rustDisplayDyadic m e), .ok ())

def serialize_f64 (s : SState) (m : Int) (e : Nat) : SState × Except SerError Unit :=
  (append_display s (rustDisplayDyadic m e), .ok ())

def serialize_char (s : SState) (v : Char) : SState × Except SerError Unit :=
  (append s [v], .ok ())

def serialize_str (s : SState) (v : List Char) : SState × Except SerError Unit :=
  (append s v, .ok ())

/-- serialize_bytes streams the URL-safe base64 encoding of the bytes
directly into the writer; note that, unlike every other value shape, it
neither consults is_start nor writes the delimiter. -/
def serialize_bytes (s : SState) (v : List Nat) : SState × Except SerError Unit :=
  ({ s with output := s.output ++ base64UrlSafe v }, .ok ())

/-- serialize_none writes the delimiter unconditionally and leaves
is_start untouched. -/
def serialize_none (s : SState) : SState × Except SerError Unit :=
  ({ s with output := s.output ++ s.delimiter }, .ok ())

def serialize_unit (s : SState) : SState × Except SerError Unit :=
  (s, .error (SerError.Unsupported "serialize_unit"))

def serialize_unit_struct (s : SState) : SState × Except SerError Unit :=
  (s, .error (SerError.Unsupported "serialize_unit_struct"))

def serialize_unit_variant (s : SState) : SState × Except SerError Unit :=
  (s, .error (SerError.Unsupported "serialize_unit_variant"))

def serialize_newtype_struct (s : SState) : SState × Except SerError Unit :=
  (s, .error (SerError.Unsupported "serialize_newtype_struct"))

def serialize_newtype_variant (s : SState) : SState × Except SerError Unit :=
  (s, .error (SerError.Unsupported "serialize_newtype_variant"))

def serialize_seq (s : SState) : SState × Except SerError Unit :=
  (s, .error (SerError.Unsupported "serialize_seq"))

def serialize_tuple (s : SState) : SState × Except SerError Unit :=
  (s, .error (SerError.Unsupported "serialize_tuple"))

def serialize_tuple_struct (s : SState) : SState × Except SerError Unit :=
  (s, .error (SerError.Unsupported "serialize_tuple_struct"))

def serialize_tuple_variant (s : SState) : SState × Except SerError Unit :=
  (s, .error (SerError.Unsupported "serialize_tuple_variant"))

def serialize_map (s : SState) : SState × Except SerError Unit :=
  (s, .error (SerError.Unsupported "serialize_map"))

def serialize_struct_variant (s : SState) : SState × Except SerError Unit :=
  (s, .error (SerError.Unsupported "serialize_struct_variant"))

def collect_str (s : SState) : SState × Except SerError Unit :=
  (s, .error (SerError.Unsupported "collect_str"))

/-- Dispatch of the rejected shapes to their serializer methods. -/
def serializeUnsupported (s : SState) : UnsupportedKind → SState × Except SerError Unit
  | .unitK => serialize_unit s
  | .unitStructK => serialize_unit_struct s
  | .unitVariantK => serialize_unit_variant s
  | .newtypeStructK => serialize_newtype_struct s
  | .newtypeVariantK => serialize_newtype_variant s
  | .seqK => serialize_seq s
  | .tupleK => serialize_tuple s
  | .tupleStructK => serialize_tuple_struct s
  | .tupleVariantK => serialize_tuple_variant s
  | .mapK => serialize_map s
  | .structVariantK => serialize_struct_variant s
  | .collectStrK => collect_str s

/-- serde's dispatch of a value to the serializer method its shape
selects; serialize_some delegates to the wrapped value. -/
def serializeValue : SState → GJField → SState × Except SerError Unit
  | s, .bool v => serialize_bool s v
  | s, .int v => serialize_i64 s v
  | s, .float m e => serialize_f64 s m e
  | s, .char v => serialize_char s v
  | s, .str v => serialize_str s v
  | s, .bytes v => serialize_bytes s v
  | s, .none => serialize_none s
  | s, .some f => serializeValue s f
  | s, .unsupported k => serializeUnsupported s k

/-- SerializeStruct::serialize_field: in keyed (map_like) mode first
append the field's declared name, then serialize the value. -/
def serialize_field (s : SState) (key : List Char) (value : GJField) : SState × Except SerError Unit :=
  if s.map_like then serializeValue (append s key) value
  else serializeValue s value

/-- One record-encoding session: the fields of one struct visited in
declared order through serialize_field, aborting on the first error. -/
def serializeFields : SState → List (List Char × GJField) → SState × Except SerError Unit
  | s, [] => (s, .ok ())
  | s, kv :: rest =>
    match serialize_field s kv.1 kv.2 with
    | (s', .ok _) => serializeFields s' rest
    | (s', .error e) => (s', .error e)

/-- Encode one record in positional mode (map_like = false) with the
given delimiter, returning the completed sink contents. -/
def encodeIndexed (delimiter : List Char) (fields : List GJField) : Except SerError (List Char) :=
  match serializeFields (newSerializer delimiter false) (fields.map (fun f => ([], f))) with
  | (s, .ok _) => .ok s.output
  | (_, .error e) => .error e

/-- The wire text each single field denotes on its own (the Scalar Codec
encoding table): an absent optional denotes the empty string. -/
def fieldEncoding : GJField → List Char
  | .bool b => if b then ['1'] else ['0']
  | .int n => intRepr n
  | .float m e => rustDisplayDyadic m e
  | .char c => [c]
  | .str v => v
  | .bytes v => base64UrlSafe v
  | .none => []
  | .some f => fieldEncoding f
  | .unsupported _ => []

/-- Join a list of encoded fields with one copy of the delimiter between
each two consecutive fields. -/
def joinDelim (d : List Char) : List (List Char) → List Char
  | [] => []
  | [x] => x
  | x :: y :: rest => x ++ d ++ joinDelim d (y :: rest)

/-- A field is none-like when unwrapping optional layers ends at None;
serializing it writes exactly one delimiter and nothing else. -/
def GJField.isNoneLike : GJField → Bool
  | .none => true
  | .some f => f.isNoneLike
  | _ => false

/-- A field is plain when it contains neither a byte blob nor a rejected
shape: the kinds whose serializers go through the append/is_start
delimiter protocol. -/
def GJField.plain : GJField → Bool
  | .bool _ => true
  | .int _ => true
  | .float _ _ => true
  | .char _ => true
  | .str _ => true
  | .bytes _ => false
  | .none => true
  | .some f => f.plain
  | .unsupported _ => false

/-- A field is supported when serializing it cannot error: every shape
except the explicitly rejected ones (byte blobs are supported here since
this serializer base64-encodes them). -/
def GJField.supported : GJField → Bool
  | .some f => f.supported
  | .unsupported _ => false
  | _ => true

example : encodeIndexed [':'] [GJField.int 3, GJField.none, GJField.str ['x']] = .ok ['3', ':', ':', 'x'] := rfl

example : encodeIndexed [':'] [GJField.none, GJField.none] = .ok [':', ':'] := rfl

example : encodeIndexed [':'] [GJField.str ['a'], GJField.bytes [98]] = .ok ['a', 'Y', 'g', '=', '='] := rfl

example : (serialize_f64 (newSerializer [':'] false) 11 0).1.output = ['1', '1'] := rfl

example : (serialize_f64 (newSerializer [':'] false) 23 1).1.output = ['1', '1', '.', '5'] := rfl

example : intRepr (-40) = ['-', '4', '0'] := rfl

/-!
Response decoding (src/response.rs). The record types and their
GJFormat::from_gj_str decoders live in the model module, which is not
part of the sources here; the decoders are therefore passed in as
explicit function arguments, and the record types carry exactly the
fields src/response.rs reads plus an opaque rest component.
-/

/-- The ResponseError enum of src/response.rs: a wrapped deserializer
error, RobTop's "-1" not-found reply, a structural mismatch, and the
Cloudflare IP ban page. -/
inductive ResponseError where
  | De (msg : String)
  | NotFound
  | UnexpectedFormat
  | IpBanned
deriving DecidableEq, Repr

/-- A record decoder as supplied by the model module's GJFormat
implementations (from_gj_str). -/
abbrev GJDecoder (α : Type) := String → Except String α

/-- Modelled from the spec: the creator record of the model module; the
response parser reads only its user_id field. -/
structure Creator where
  user_id : Nat
  rest : String
deriving DecidableEq, Repr

/-- Modelled from the spec: the Newgrounds song record of the model
module; the response parser reads only its song_id field. -/
structure NewgroundsSong where
  song_id : Nat
  rest : String
deriving DecidableEq, Repr

/-- Modelled from the spec: a freshly decoded level (Level with unit
relations); the response parser reads its embedded creator user id and
optional custom-song id, and copies the remaining fields verbatim. -/
structure RawLevel where
  creator : Nat
  custom_song : Option Nat
  rest : String
deriving DecidableEq, Repr

/-- A level whose creator and custom-song relations have been resolved
against the other sections of the same response (ListedLevel). -/
structure ListedLevel where
  creator : Option Creator
  custom_song : Option NewgroundsSong
  level : RawLevel
deriving DecidableEq, Repr

/-- Modelled from the spec: the comment author record (CommentUser). -/
structure CommentUser where
  rest : String
deriving DecidableEq, Repr

/-- Modelled from the spec: a level comment; its user field starts out
empty and is set by the response parser. -/
structure LevelComment where
  user : Option CommentUser
  rest : String
deriving DecidableEq, Repr

/-- Modelled from the spec: a profile comment record. -/
structure ProfileComment where
  rest : String
deriving DecidableEq, Repr

/-- Rust str::split for a fixed nonempty pattern over char lists:
successive non-overlapping matches, empty pieces preserved (consecutive
delimiters yield empty fragments, a leading/trailing delimiter yields a
leading/trailing empty fragment). Fuel-driven; one char or one match is
consumed per step, so input length suffices as fuel. -/
def splitOnAuxL (sep : List Char) : Nat → List Char → List (List Char)
  | _, [] => [[]]
  | 0, l => [l]
  | fuel + 1, x :: xs =>
    if sep.isPrefixOf (x :: xs) then
      [] :: splitOnAuxL sep fuel (List.drop sep.length (x :: xs))
    else
      match splitOnAuxL sep fuel xs with
      | [] => [[x]]
      | g :: gs => (x :: g) :: gs

/-- Rust str::split at the String level. -/
def rustSplit (sep : String) (s : String) : List String :=
  (splitOnAuxL sep.data (s.data.length + 1) s.data).map String.mk

/-- The section! macro: take the next section of the iterator or fail
with UnexpectedFormat. -/
def nextSection : List String → Except ResponseError (String × List String)
  | [] => .error ResponseError.UnexpectedFormat
  | s :: rest => .ok (s, rest)

/-- Lift a deserializer error into ResponseError::De (the From impl). -/
def liftDe {α : Type} : Except String α → Except ResponseError α
  | .ok a => .ok a
  | .error e => .error (ResponseError.De e)

/-- Rust's collect::<Result<Vec<_>, _>>() over an iterator of fallible
items: all results in order, or the first error. -/
def collectResults {ε α β : Type} (f : α → Except ε β) : List α → Except ε (List β)
  | [] => .ok []
  | x :: xs =>
    match f x with
    | .error e => .error e
    | .ok b =>
      match collectResults f xs with
      | .error e => .error e
      | .ok bs => .ok (b :: bs)

/-- check_response_errors: whole-body comparison against the two
reserved error literals, before anything else. -/
def check_response_errors (response : String) : Except ResponseError Unit :=
  if response = "-1" then .error ResponseError.NotFound
  else if response = "error code: 1005" then .error ResponseError.IpBanned
  else .ok ()

/-- The per-level closure of parse_get_gj_levels_response: resolve the
level's creator by user id and its custom song by song id against the
already parsed sections; a missing match leaves the relation empty. -/
def resolveLevel (creators : List Creator) (songs : List NewgroundsSong)
    (level : RawLevel) : ListedLevel :=
  let creator := creators.find? (fun creator => creator.user_id == level.creator)
  let song := level.custom_song.bind
    (fun song_id => songs.find? (fun song => song.song_id == song_id))
  { creator := creator, custom_song := song, level := level }

/-- One fragment step of the level list: decode the level, then resolve
its relations (the only fallible part is the level decode itself). -/
def levelFragmentStep (levelDe : GJDecoder RawLevel) (creators : List Creator)
    (songs : List NewgroundsSong) (fragment : String) : Except ResponseError ListedLevel := do
  let level ← liftDe (levelDe fragment)
  pure (resolveLevel creators songs level)

/-- parse_get_gj_levels_response: sections split on '#' (levels,
creators, songs); creators split on '|' and songs on "~:~", both with
empty fragments dropped; levels split on '|' with no such filter. -/
def parse_get_gj_levels_response (levelDe : GJDecoder RawLevel)
    (creatorDe : GJDecoder Creator) (songDe : GJDecoder NewgroundsSong)
    (response : String) : Except ResponseError (List ListedLevel) := do
  let _ ← check_response_errors response
  let sections := rustSplit "#" response
  let (levels, sections) ← nextSection sections
  let (creatorSec, sections) ← nextSection sections
  let creators ← collectResults (fun s => liftDe (creatorDe s))
    ((rustSplit "|" creatorSec).filter (fun s => !s.isEmpty))
  let (songSec, _) ← nextSection sections
  let songs ← collectResults (fun s => liftDe (songDe s))
    ((rustSplit "~:~" songSec).filter (fun s => !s.isEmpty))
  collectResults (levelFragmentStep levelDe creators songs) (rustSplit "|" levels)

/-- parse_download_gj_level_response: first '#' section is the level. -/
def parse_download_gj_level_response {α : Type} (levelDe : GJDecoder α)
    (response : String) : Except ResponseError α := do
  let _ ← check_response_errors response
  let (sec, _) ← nextSection (rustSplit "#" response)
  liftDe (levelDe sec)

/-- parse_get_gj_user_info_response: the whole body is the profile. -/
def parse_get_gj_user_info_response {α : Type} (profileDe : GJDecoder α)
    (response : String) : Except ResponseError α := do
  let _ ← check_response_errors response
  liftDe (profileDe response)

/-- parse_get_gj_users_response: first '#' section is the (at most one)
searched user. -/
def parse_get_gj_users_response {α : Type} (userDe : GJDecoder α)
    (response : String) : Except ResponseError α := do
  let _ ← check_response_errors response
  let (sec, _) ← nextSection (rustSplit "#" response)
  liftDe (userDe sec)

/-- One fragment of the level-comment list: split on ':', require at
least two parts (extra parts are not consumed), decode the first as the
comment, and resolve the second to no author when it is the reserved
sentinel literal, otherwise decode it as the author. -/
def parseCommentFragment (commentDe : GJDecoder LevelComment)
    (userDe : GJDecoder CommentUser) (fragment : String) :
    Except ResponseError LevelComment :=
  match rustSplit ":" fragment with
  | raw_comment :: raw_user :: _ => do
    let comment ← liftDe (commentDe raw_comment)
    if raw_user = "1~~9~~10~~11~~14~~15~~16~" then
      pure { comment with user := Option.none }
    else do
      let u ← liftDe (userDe raw_user)
      pure { comment with user := Option.some u }
  | _ => .error ResponseError.UnexpectedFormat

/-- parse_get_gj_comments_response: first '#' section is a '|' separated
list of (comment, author) pairs, each pair separated by ':'. -/
def parse_get_gj_comments_response (commentDe : GJDecoder LevelComment)
    (userDe : GJDecoder CommentUser) (response : String) :
    Except ResponseError (List LevelComment) := do
  let _ ← check_response_errors response
  let (sec, _) ← nextSection (rustSplit "#" response)
  collectResults (parseCommentFragment commentDe userDe) (rustSplit "|" sec)

/-- parse_get_gj_acccount_comments_response: first '#' section is a '|'
separated list of profile comments (no empty-fragment filter). -/
def parse_get_gj_acccount_comments_response (pcDe : GJDecoder ProfileComment)
    (response : String) : Except ResponseError (List ProfileComment) := do
  let _ ← check_response_errors response
  let (sec, _) ← nextSection (rustSplit "#" response)
  collectResults (fun fragment => liftDe (pcDe fragment)) (rustSplit "|" sec)

/-- Concrete decoders used to instantiate the decoder-parametric
theorems: they reject the empty string (the empty string is not a valid
record encoding) and succeed on any other fragment. -/
def creatorDeW : GJDecoder Creator :=
  fun s => if s.isEmpty then .error "empty" else .ok ⟨0, s⟩

def songDeW : GJDecoder NewgroundsSong :=
  fun s => if s.isEmpty then .error "empty" else .ok ⟨0, s⟩

def levelDeW : GJDecoder RawLevel :=
  fun s => if s.isEmpty then .error "empty" else .ok ⟨1, Option.none, s⟩

def commentDeW : GJDecoder LevelComment :=
  fun s => if s.isEmpty then .error "empty" else .ok ⟨Option.none, s⟩

def userDeW : GJDecoder CommentUser :=
  fun s => if s.isEmpty then .error "empty" else .ok ⟨s⟩

def profileDeW : GJDecoder ProfileComment :=
  fun s => if s.isEmpty then .error "empty" else .ok ⟨s⟩

example : rustSplit "|" "a||b" = ["a", "", "b"] := rfl

example : rustSplit "~:~" "s1~:~~:~s2" = ["s1", "", "s2"] := rfl

example : rustSplit ":" "" = [""] := rfl

example : rustSplit "#" "a#b#c" = ["a", "b", "c"] := rfl

example : parse_get_gj_comments_response commentDeW userDeW "x:u||y:u" =
  .error ResponseError.UnexpectedFormat := rfl

example : parse_get_gj_comments_response commentDeW userDeW "x:u|y:u" =
  .ok [⟨Option.some ⟨"u"⟩, "x"⟩, ⟨Option.some ⟨"u"⟩, "y"⟩] := rfl

example : parse_get_gj_levels_response levelDeW creatorDeW songDeW "L#c1||c2#s1~:~~:~s2" =
  .ok [⟨Option.none, Option.none, ⟨1, Option.none, "L"⟩⟩] := rfl

example : parse_get_gj_comments_response commentDeW userDeW
  "x:1~~9~~10~~11~~14~~15~~16~" = .ok [⟨Option.none, "x"⟩] := rfl

/-- Modelled from the spec: the paired comment/author decoding applied
to two already separated parts - first part parsed as the comment
record, second part resolving to an empty author relation exactly when
it equals the reserved sentinel literal and otherwise parsed as the
author record. -/
def decodePair (commentDe : GJDecoder LevelComment) (userDe : GJDecoder CommentUser)
    (raw_comment raw_user : String) : Except ResponseError LevelComment := do
  let comment ← liftDe (commentDe raw_comment)
  if raw_user = "1~~9~~10~~11~~14~~15~~16~" then
    pure { comment with user := Option.none }
  else do
    let u ← liftDe (userDe raw_user)
    pure { comment with user := Option.some u }

/-!
Request rendering (src/request/mod.rs, src/request/user.rs). The
RequestSerializer lives in the serde module outside these sources; per
the spec it is the Record Codec in keyed mode over the request's
declared fields, so to_string is modelled over explicit keyed field
lists.
-/

/-- The GameVersion value of the model module (major and minor). -/
structure GameVersion where
  major : Nat
  minor : Nat
deriving DecidableEq, Repr

/-- BaseRequest of src/request/mod.rs: game version, binary version and
the secret string included in every request. -/
structure BaseRequest where
  game_version : GameVersion
  binary_version : GameVersion
  secret : String
deriving DecidableEq, Repr

/-- The GD_22 base request constant. -/
def GD_22 : BaseRequest := ⟨⟨2, 2⟩, ⟨3, 8⟩, "Wmfd2893gb7"⟩

/-- UserRequest of src/request/user.rs: base data plus the target
account id. -/
structure UserRequest where
  base : BaseRequest
  user : Nat
deriving DecidableEq, Repr

/-- UserRequest::new. -/
def UserRequest.new (user_id : Nat) : UserRequest := ⟨GD_22, user_id⟩

/-- UserSearchRequest of src/request/user.rs: base data, pagination
fields and the searched name. -/
structure UserSearchRequest where
  base : BaseRequest
  total : Nat
  page : Nat
  search_string : String
deriving DecidableEq, Repr

/-- UserSearchRequest::new. -/
def UserSearchRequest.new (search_string : String) : UserSearchRequest :=
  ⟨GD_22, 0, 0, search_string⟩

/-- Modelled from the spec: a GameVersion is converted to a string for
the wire (the model module holding the conversion is not in the
sources); rendered as the concatenated major and minor digits. -/
def gvText (v : GameVersion) : List Char := natDigits (v.major * 10 + v.minor)

/-- Modelled from the spec: the declared keyed fields of UserRequest in
order (the serde rename attributes give the wire names gameVersion,
binaryVersion, secret, targetAccountID); the base sub-record's fields
recurse through the same Record Codec and are listed inline. -/
def userRequestFields (r : UserRequest) : List (List Char × GJField) :=
  [("gameVersion".data, GJField.str (gvText r.base.game_version)),
   ("binaryVersion".data, GJField.str (gvText r.base.binary_version)),
   ("secret".data, GJField.str r.base.secret.data),
   ("targetAccountID".data, GJField.int r.user)]

/-- Modelled from the spec: the declared keyed fields of
UserSearchRequest in order (wire names gameVersion, binaryVersion,
secret, total, page, str). -/
def userSearchRequestFields (r : UserSearchRequest) : List (List Char × GJField) :=
  [("gameVersion".data, GJField.str (gvText r.base.game_version)),
   ("binaryVersion".data, GJField.str (gvText r.base.binary_version)),
   ("secret".data, GJField.str r.base.secret.data),
   ("total".data, GJField.int r.total),
   ("page".data, GJField.int r.page),
   ("str".data, GJField.str r.search_string.data)]

/-- to_string of src/request/mod.rs: serialize the request through the
RequestSerializer (modelled from the spec as the Record Codec in keyed
mode with the form-field delimiter) and unwrap the Result; the panic
branch of the unwrap is modelled as Option.none. -/
def to_string (fields : List (List Char × GJField)) : Option (List Char) :=
  match serializeFields (newSerializer "&".data true) fields with
  | (s, .ok _) => Option.some s.output
  | (_, .error _) => Option.none

/-- GET_USER_ENDPOINT of src/request/user.rs. -/
def GET_USER_ENDPOINT : String := "getGJUserInfo20.php"

/-- SEARCH_USER_ENDPOINT of src/request/user.rs. -/
def SEARCH_USER_ENDPOINT : String := "getGJUsers20.php"

/-- BOOMLINGS_ENDPOINTS_BASE of src/request/mod.rs. -/
def BOOMLINGS_ENDPOINTS_BASE : String := "https://www.silverragdps.mathieuar.fr"

/-- endpoint_base_url: the OnceLock global modelled as the optional
configured value; get_or_init falls back to the fixed literal when the
lock was never set. -/
def endpoint_base_url (config : Option String) : String :=
  config.getD BOOMLINGS_ENDPOINTS_BASE

/-- UserRequest::to_url: base url plus the fixed endpoint, ignoring the
request's fields entirely. -/
def UserRequest.to_url (config : Option String) (_r : UserRequest) : String :=
  endpoint_base_url config ++ GET_USER_ENDPOINT

/-- UserSearchRequest::to_url: base url plus the fixed endpoint,
ignoring the request's fields entirely. -/
def UserSearchRequest.to_url (config : Option String) (_r : UserSearchRequest) : String :=
  endpoint_base_url config ++ SEARCH_USER_ENDPOINT

/-!
Theorems. First the delimiter-placement lemmas for the serializer, then
the per-claim results.
-/

/-- A none-like field's own encoding is the empty string. -/
theorem fieldEncoding_noneLike : ∀ f : GJField, f.isNoneLike = true → fieldEncoding f = []
  | .none, _ => rfl
  | .some f, h => fieldEncoding_noneLike f h

/-- Serializing a none-like field writes exactly one delimiter and
leaves the is_start flag untouched. -/
theorem serializeValue_noneLike : ∀ (f : GJField), f.isNoneLike = true →
    ∀ (d o : List Char) (ml b : Bool),
    serializeValue ⟨d, o, ml, b⟩ f = (⟨d, o ++ d, ml, b⟩, .ok ())
  | .none, _ => fun _ _ _ _ => rfl
  | .some f, h => serializeValue_noneLike f h

/-- Serializing a plain non-none-like field once something has already
been emitted writes the delimiter and then the field's own encoding. -/
theorem serializeValue_plain_started : ∀ (f : GJField), f.plain = true →
    f.isNoneLike = false → ∀ (d o : List Char),
    serializeValue ⟨d, o, false, false⟩ f =
      (⟨d, o ++ d ++ fieldEncoding f, false, false⟩, .ok ())
  | .bool _, _, _ => fun _ _ => rfl
  | .int _, _, _ => fun _ _ => rfl
  | .float _ _, _, _ => fun _ _ => rfl
  | .char _, _, _ => fun _ _ => rfl
  | .str _, _, _ => fun _ _ => rfl
  | .some f, hp, hn => serializeValue_plain_started f hp hn

/-- Serializing a plain non-none-like field as the first emission writes
the field's own encoding with no delimiter and clears is_start. -/
theorem serializeValue_plain_fresh : ∀ (f : GJField), f.plain = true →
    f.isNoneLike = false → ∀ (d o : List Char),
    serializeValue ⟨d, o, false, true⟩ f =
      (⟨d, o ++ fieldEncoding f, false, false⟩, .ok ())
  | .bool _, _, _ => fun _ _ => rfl
  | .int _, _, _ => fun _ _ => rfl
  | .float _ _, _, _ => fun _ _ => rfl
  | .char _, _, _ => fun _ _ => rfl
  | .str _, _, _ => fun _ _ => rfl
  | .some f, hp, hn => serializeValue_plain_fresh f hp hn

/-- Unfolding one successful field step of a record session. -/
theorem serializeFields_cons_of_ok {s s' : SState} {k : List Char} {g : GJField}
    (rest : List (List Char × GJField)) (h : serialize_field s k g = (s', .ok ())) :
    serializeFields s ((k, g) :: rest) = serializeFields s' rest := by
  simp only [serializeFields]
  rw [h]

/-- In positional mode serialize_field ignores the key. -/
theorem serialize_field_positional (d o : List Char) (b : Bool) (k : List Char) (g : GJField) :
    serialize_field ⟨d, o, false, b⟩ k g = serializeValue ⟨d, o, false, b⟩ g := rfl

/-- After the first field has been emitted (is_start = false), a
positional session appends one delimiter and then the delimiter-join of
the remaining fields, for any nonempty all-plain field list. -/
theorem serializeFields_started (d : List Char) :
    ∀ (l : List GJField) (g : GJField) (o : List Char),
    (∀ f ∈ g :: l, f.plain = true) →
    serializeFields ⟨d, o, false, false⟩ ((g :: l).map (fun f => ([], f))) =
      (⟨d, o ++ d ++ joinDelim d ((g :: l).map fieldEncoding), false, false⟩, .ok ()) := by
  intro l
  induction l with
  | nil =>
    intro g o hp
    have hpg : g.plain = true := hp g (List.mem_cons_self g [])
    cases hg : g.isNoneLike with
    | true =>
      rw [List.map_cons, List.map_nil,
        serializeFields_cons_of_ok [] ((serialize_field_positional d o false [] g).trans (serializeValue_noneLike g hg d o false false))]
      simp only [serializeFields, joinDelim, List.map_cons, List.map_nil,
        fieldEncoding_noneLike g hg, List.append_nil]
    | false =>
      rw [List.map_cons, List.map_nil,
        serializeFields_cons_of_ok [] ((serialize_field_positional d o false [] g).trans (serializeValue_plain_started g hpg hg d o))]
      simp only [serializeFields, joinDelim, List.map_cons, List.map_nil]
  | cons g' l' ih =>
    intro g o hp
    have hpg : g.plain = true := hp g (List.mem_cons_self g _)
    have hp' : ∀ f ∈ g' :: l', f.plain = true := fun f hf => hp f (List.mem_cons_of_mem g hf)
    cases hg : g.isNoneLike with
    | true =>
      rw [List.map_cons,
        serializeFields_cons_of_ok _ ((serialize_field_positional d o false [] g).trans (serializeValue_noneLike g hg d o false false))]
      have step := ih g' (o ++ d) hp'
      rw [step]
      simp only [joinDelim, List.map_cons, fieldEncoding_noneLike g hg,
        List.nil_append, List.append_assoc]
    | false =>
      rw [List.map_cons,
        serializeFields_cons_of_ok _ ((serialize_field_positional d o false [] g).trans (serializeValue_plain_started g hpg hg d o))]
      have step := ih g' (o ++ d ++ fieldEncoding g) hp'
      rw [step]
      simp only [joinDelim, List.map_cons, List.append_assoc]

/-- From a fresh positional session, an all-plain field list with at
least one non-none-like field encodes to exactly the delimiter-join of
the individual field encodings. -/
theorem serializeFields_fresh (d : List Char) :
    ∀ (l : List GJField) (o : List Char),
    (∀ f ∈ l, f.plain = true) → (∃ f ∈ l, f.isNoneLike = false) →
    serializeFields ⟨d, o, false, true⟩ (l.map (fun f => ([], f))) =
      (⟨d, o ++ joinDelim d (l.map fieldEncoding), false, false⟩, .ok ()) := by
  intro l
  induction l with
  | nil =>
    intro o _ hs
    rcases hs with ⟨f, hf, _⟩
    cases hf
  | cons g l' ih =>
    intro o hp hs
    have hpg : g.plain = true := hp g (List.mem_cons_self g _)
    have hp' : ∀ f ∈ l', f.plain = true := fun f hf => hp f (List.mem_cons_of_mem g hf)
    cases hg : g.isNoneLike with
    | false =>
      rw [List.map_cons,
        serializeFields_cons_of_ok _ ((serialize_field_positional d o true [] g).trans (serializeValue_plain_fresh g hpg hg d o))]
      cases l' with
      | nil =>
        simp only [List.map_nil, serializeFields, List.map_cons, joinDelim]
      | cons g' l'' =>
        have step := serializeFields_started d l'' g' (o ++ fieldEncoding g) hp'
        rw [List.map_cons] at step ⊢
        rw [step]
        simp only [joinDelim, List.map_cons, List.append_assoc]
    | true =>
      have hs' : ∃ f ∈ l', f.isNoneLike = false := by
        rcases hs with ⟨f, hf, hfn⟩
        cases hf with
        | head => rw [hg] at hfn; cases hfn
        | tail _ h => exact ⟨f, h, hfn⟩
      rw [List.map_cons,
        serializeFields_cons_of_ok _ ((serialize_field_positional d o true [] g).trans (serializeValue_noneLike g hg d o false true))]
      rw [ih (o ++ d) hp' hs']
      rcases hs' with ⟨f, hf, _⟩
      cases l' with
      | nil => cases hf
      | cons g' l'' =>
        simp only [joinDelim, fieldEncoding_noneLike g hg, List.map_cons,
          List.nil_append, List.append_assoc]

/-- Decimal digit characters are never the fractional separator. -/
theorem digitChar_ne_dot (k : Nat) : digitChar k ≠ '.' := by
  unfold digitChar
  by_cases h : k < 10
  · interval_cases k <;> decide
  · rw [List.getD_eq_default]
    · decide
    · have hlen : ("0123456789".toList).length = 10 := rfl
      omega

/-- The decimal printer never emits a fractional separator. -/
theorem natDigitsAux_no_dot : ∀ (fuel n : Nat), '.' ∉ natDigitsAux fuel n := by
  intro fuel
  induction fuel with
  | zero => intro n; simp [natDigitsAux]
  | succ fuel ih =>
    intro n
    simp only [natDigitsAux]
    split
    · intro h
      exact digitChar_ne_dot n (List.mem_singleton.mp h).symm
    · intro h
      rcases List.mem_append.mp h with h | h
      · exact ih _ h
      · exact digitChar_ne_dot _ (List.mem_singleton.mp h).symm

/-- A zero numerator produces no fractional digits. -/
theorem fracDigits_zero (den : Nat) : ∀ fuel, fracDigits den fuel 0 = [] := by
  intro fuel; cases fuel <;> rfl

/-- A dyadic value with zero fractional part displays with no
fractional separator. -/
theorem rustDisplayDyadic_no_dot (m : Int) (e : Nat) (h : m.natAbs % 2 ^ e = 0) :
    '.' ∉ rustDisplayDyadic m e := by
  intro hmem
  unfold rustDisplayDyadic at hmem
  rw [h, fracDigits_zero] at hmem
  rcases List.mem_append.mp hmem with hmem | hmem
  · rcases List.mem_append.mp hmem with hmem | hmem
    · split at hmem
      · simp at hmem
      · simp at hmem
    · exact natDigitsAux_no_dot _ _ hmem
  · simp at hmem

/-- Occurrences of a delimiter character in a delimiter-join of
delimiter-free texts: exactly one per gap between consecutive fields. -/
theorem count_joinDelim (c : Char) : ∀ (l : List (List Char)), (∀ x ∈ l, c ∉ x) →
    (joinDelim [c] l).count c = l.length - 1 := by
  intro l
  induction l with
  | nil => intro _; simp [joinDelim]
  | cons x rest ih =>
    intro h
    have hx : x.count c = 0 := List.count_eq_zero.mpr (h x (List.mem_cons_self x rest))
    cases rest with
    | nil => simp [joinDelim, hx]
    | cons y rest' =>
      have hrest : ∀ z ∈ y :: rest', c ∉ z := fun z hz => h z (List.mem_cons_of_mem x hz)
      simp only [joinDelim, List.count_append, hx, ih hrest]
      simp [List.length_cons]
      omega

/-- C1 (amended): for a positional record-encoding session whose fields
are booleans, integers, floats, chars, strings or optionals thereof
(byte blobs excluded), with at least one field that is not an absent
optional, the encoded record equals the delimiter-join of each field's
individual encoding: no delimiter before the first field, exactly one
before every later one. -/
theorem C1_delimiter_join (d : List Char) (fields : List GJField)
    (hplain : ∀ f ∈ fields, f.plain = true)
    (hsome : ∃ f ∈ fields, f.isNoneLike = false) :
    encodeIndexed d fields = .ok (joinDelim d (fields.map fieldEncoding)) := by
  unfold encodeIndexed
  rw [show newSerializer d false = ⟨d, [], false, true⟩ from rfl,
    serializeFields_fresh d fields [] hplain hsome]
  simp

/-- Witness for C1_delimiter_join at a concrete three-field record. -/
theorem C1_delimiter_join_witness :
    encodeIndexed [':'] [GJField.int 3, GJField.none, GJField.str ['x']] =
      .ok ['3', ':', ':', 'x'] :=
  C1_delimiter_join [':'] [GJField.int 3, GJField.none, GJField.str ['x']]
    (by decide) ⟨GJField.int 3, by decide, rfl⟩

/-- C1 as frozen is false: a byte-blob field is emitted with no
delimiter at all (serialize_bytes bypasses the is_start protocol), and a
record all of whose fields are absent optionals emits one delimiter per
field instead of the join's n - 1 delimiters. -/
theorem C1_delimiter_join_counterexample :
    (encodeIndexed [':'] [GJField.str ['a'], GJField.bytes [98]] =
      .ok ['a', 'Y', 'g', '=', '=']) ∧
    (joinDelim [':'] ([GJField.str ['a'], GJField.bytes [98]].map fieldEncoding) =
      ['a', ':', 'Y', 'g', '=', '=']) ∧
    (['a', 'Y', 'g', '=', '='] ≠ ['a', ':', 'Y', 'g', '=', '=']) ∧
    (encodeIndexed [':'] [GJField.none, GJField.none] = .ok [':', ':']) ∧
    (joinDelim [':'] ([GJField.none, GJField.none].map fieldEncoding) = [':']) ∧
    ([':', ':'] ≠ ([':'] : List Char)) :=
  ⟨rfl, rfl, by decide, rfl, rfl, by decide⟩

/-- C6 (amended): an absent optional still occupies its delimiter slot:
for a plain-field positional record whose encodings avoid the delimiter
character, setting any field to None yields the delimiter-join with that
slot empty (all other slots unchanged), and the number of delimiters in
the output is n - 1 - provided at least one field stays non-None. -/
theorem C6_none_slot (c : Char) (fields : List GJField) (i : Nat)
    (hplain : ∀ f ∈ fields, f.plain = true)
    (hc : ∀ f ∈ fields, c ∉ fieldEncoding f)
    (hsome : ∃ f ∈ fields.set i GJField.none, f.isNoneLike = false) :
    encodeIndexed [c] (fields.set i GJField.none) =
      .ok (joinDelim [c] ((fields.map fieldEncoding).set i [])) ∧
    (joinDelim [c] ((fields.map fieldEncoding).set i [])).count c =
      fields.length - 1 := by
  have hplain' : ∀ f ∈ fields.set i GJField.none, f.plain = true := by
    intro f hf
    rcases List.mem_or_eq_of_mem_set hf with hf | rfl
    · exact hplain f hf
    · rfl
  have hmap : (fields.set i GJField.none).map fieldEncoding =
      (fields.map fieldEncoding).set i [] := by
    rw [List.map_set]
    rfl
  constructor
  · unfold encodeIndexed
    rw [show newSerializer [c] false = ⟨[c], [], false, true⟩ from rfl,
      serializeFields_fresh [c] _ [] hplain' hsome, hmap]
    simp
  · have hc' : ∀ x ∈ (fields.map fieldEncoding).set i [], c ∉ x := by
      intro x hx
      rcases List.mem_or_eq_of_mem_set hx with hx | rfl
      · rcases List.mem_map.mp hx with ⟨f, hf, rfl⟩
        exact hc f hf
      · simp
    rw [count_joinDelim c _ hc', List.length_set, List.length_map]

/-- Witness for C6_none_slot: a two-field record with the second field
replaced by None keeps one delimiter. -/
theorem C6_none_slot_witness :
    encodeIndexed [':'] ([GJField.int 1, GJField.int 2].set 1 GJField.none) =
      .ok (joinDelim [':'] (([GJField.int 1, GJField.int 2].map fieldEncoding).set 1 [])) ∧
    (joinDelim [':'] (([GJField.int 1, GJField.int 2].map fieldEncoding).set 1 [])).count ':' =
      [GJField.int 1, GJField.int 2].length - 1 :=
  C6_none_slot ':' [GJField.int 1, GJField.int 2] 1 (by decide) (by decide)
    ⟨GJField.int 1, by decide, rfl⟩

/-- C6 as frozen is false: a record whose fields are all None emits one
delimiter per field (n, not n - 1), and a byte-blob field occupies no
delimiter slot at all (0 delimiters for a two-field record). -/
theorem C6_none_slot_counterexample :
    (encodeIndexed [':'] [GJField.none] = .ok [':']) ∧
    ([':'].count ':' = 1) ∧ (1 ≠ ([GJField.none].length - 1 : Nat)) ∧
    (encodeIndexed [':'] [GJField.str ['a'], GJField.bytes [98]] =
      .ok ['a', 'Y', 'g', '=', '=']) ∧
    (['a', 'Y', 'g', '=', '='].count ':' = 0) ∧
    (0 ≠ ([GJField.str ['a'], GJField.bytes [98]].length - 1 : Nat)) :=
  ⟨rfl, rfl, by decide, rfl, rfl, by decide⟩

/-- C7: serialize_f64 (and serialize_f32) format through the standard
Display conversion: the value eleven (11 / 2 ^ 0) writes exactly "11"
with no fractional separator, eleven and a half (23 / 2 ^ 1) writes
exactly "11.5", and any dyadic value with zero fractional part displays
with no fractional separator at all. -/
theorem C7_float_display :
    ((serialize_f64 (newSerializer [':'] false) 11 0).1.output = ['1', '1']) ∧
    ((serialize_f64 (newSerializer [':'] false) 23 1).1.output = ['1', '1', '.', '5']) ∧
    ((serialize_f32 (newSerializer [':'] false) 11 0).1.output = ['1', '1']) ∧
    ((serialize_f32 (newSerializer [':'] false) 23 1).1.output = ['1', '1', '.', '5']) ∧
    (∀ (m : Int) (e : Nat), m.natAbs % 2 ^ e = 0 → '.' ∉ rustDisplayDyadic m e) :=
  ⟨rfl, rfl, rfl, rfl, rustDisplayDyadic_no_dot⟩

/-- Witness for C7_float_display: the integral dyadic value 8 / 2 ^ 3
displays with no fractional separator. -/
theorem C7_float_display_witness : '.' ∉ rustDisplayDyadic 8 3 :=
  C7_float_display.2.2.2.2 8 3 (by decide)

/-- C8: each of the twelve serializer methods for unsupported constructs
returns the Unsupported error naming that construct and leaves the
output sink (the whole serializer state) untouched. -/
theorem C8_unsupported_constructs (s : SState) :
    serialize_unit s = (s, .error (SerError.Unsupported "serialize_unit")) ∧
    serialize_unit_struct s = (s, .error (SerError.Unsupported "serialize_unit_struct")) ∧
    serialize_unit_variant s = (s, .error (SerError.Unsupported "serialize_unit_variant")) ∧
    serialize_newtype_struct s = (s, .error (SerError.Unsupported "serialize_newtype_struct")) ∧
    serialize_newtype_variant s = (s, .error (SerError.Unsupported "serialize_newtype_variant")) ∧
    serialize_seq s = (s, .error (SerError.Unsupported "serialize_seq")) ∧
    serialize_tuple s = (s, .error (SerError.Unsupported "serialize_tuple")) ∧
    serialize_tuple_struct s = (s, .error (SerError.Unsupported "serialize_tuple_struct")) ∧
    serialize_tuple_variant s = (s, .error (SerError.Unsupported "serialize_tuple_variant")) ∧
    serialize_map s = (s, .error (SerError.Unsupported "serialize_map")) ∧
    serialize_struct_variant s = (s, .error (SerError.Unsupported "serialize_struct_variant")) ∧
    collect_str s = (s, .error (SerError.Unsupported "collect_str")) :=
  ⟨rfl, rfl, rfl, rfl, rfl, rfl, rfl, rfl, rfl, rfl, rfl, rfl⟩

/-- If any element of the list fails, Rust's collect over Results fails
(either at that element or at an earlier one). -/
theorem collectResults_isOk_false {ε α β : Type} (f : α → Except ε β) :
    ∀ (l : List α) (x : α), x ∈ l → (f x).isOk = false →
    (collectResults f l).isOk = false := by
  intro l
  induction l with
  | nil => intro x hx; cases hx
  | cons a as ih =>
    intro x hx hf
    simp only [collectResults]
    cases hfa : f a with
    | error e => rfl
    | ok b =>
      cases hx with
      | head => rw [hfa] at hf; cases hf
      | tail _ hmem =>
        have := ih x hmem hf
        cases hrest : collectResults f as with
        | error e => rfl
        | ok bs => rw [hrest] at this; cases this

/-- C2 (amended): only the creator section (split on the pipe) and the
song section (split on the tilde-colon-tilde delimiter) drop empty
fragments before record parsing; the level-comment list is split on the
pipe with no filter, so a response containing a doubled pipe there
always fails, while doubled delimiters inside the creator and song
sections are harmless. -/
theorem C2_empty_fragments (sec : String) :
    (∀ x ∈ (rustSplit "|" sec).filter (fun s => !s.isEmpty), x.isEmpty = false) ∧
    (∀ x ∈ (rustSplit "~:~" sec).filter (fun s => !s.isEmpty), x.isEmpty = false) ∧
    (∀ (cDe : GJDecoder LevelComment) (uDe : GJDecoder CommentUser),
      "" ∈ rustSplit "|" sec →
      (collectResults (parseCommentFragment cDe uDe) (rustSplit "|" sec)).isOk = false) ∧
    (parse_get_gj_levels_response levelDeW creatorDeW songDeW "L#c1||c2#s1~:~~:~s2" =
      .ok [⟨Option.none, Option.none, ⟨1, Option.none, "L"⟩⟩]) := by
  refine ⟨?_, ?_, ?_, rfl⟩
  · intro x hx
    have := (List.mem_filter.mp hx).2
    simpa using this
  · intro x hx
    have := (List.mem_filter.mp hx).2
    simpa using this
  · intro cDe uDe hmem
    exact collectResults_isOk_false _ _ "" hmem rfl

/-- Witness for C2_empty_fragments at concrete sections. -/
theorem C2_empty_fragments_witness :
    ("a".isEmpty = false) ∧
    ((collectResults (parseCommentFragment commentDeW userDeW)
      (rustSplit "|" "x:u||y:u")).isOk = false) :=
  ⟨(C2_empty_fragments "a||b").1 "a" (by decide),
   (C2_empty_fragments "x:u||y:u").2.2.1 commentDeW userDeW (by decide)⟩

/-- C2 as frozen is false: the level-comment list, the profile-comment
list and the primary level list do not drop empty fragments, so a
doubled pipe makes these calls fail even though every nonempty fragment
parses fine (shown by the corresponding single-pipe inputs). -/
theorem C2_empty_fragments_counterexample :
    (parse_get_gj_comments_response commentDeW userDeW "x:u|y:u" =
      .ok [⟨Option.some ⟨"u"⟩, "x"⟩, ⟨Option.some ⟨"u"⟩, "y"⟩]) ∧
    (parse_get_gj_comments_response commentDeW userDeW "x:u||y:u" =
      .error ResponseError.UnexpectedFormat) ∧
    (parse_get_gj_acccount_comments_response profileDeW "p|q" = .ok [⟨"p"⟩, ⟨"q"⟩]) ∧
    (parse_get_gj_acccount_comments_response profileDeW "p||q" =
      .error (ResponseError.De "empty")) ∧
    (parse_get_gj_levels_response levelDeW creatorDeW songDeW "L1|L2#c#s" =
      .ok [⟨Option.none, Option.none, ⟨1, Option.none, "L1"⟩⟩,
           ⟨Option.none, Option.none, ⟨1, Option.none, "L2"⟩⟩]) ∧
    (parse_get_gj_levels_response levelDeW creatorDeW songDeW "L1||L2#c#s" =
      .error (ResponseError.De "empty")) :=
  ⟨rfl, rfl, rfl, rfl, rfl, rfl⟩

/-- C3 (amended): a fragment with no ':' separator makes the call fail
with Unexpected-format; a fragment with one or more ':' separators is
decoded from its first two parts only (any further parts are silently
ignored, not an error): the first part parsed as the comment record, the
second yielding an empty author relation exactly when it equals the
reserved sentinel literal and otherwise parsed as a CommentUser. -/
theorem C3_pair_decoding (cDe : GJDecoder LevelComment) (uDe : GJDecoder CommentUser) :
    (∀ fragment, (rustSplit ":" fragment).length = 1 →
      parseCommentFragment cDe uDe fragment = .error ResponseError.UnexpectedFormat) ∧
    (∀ fragment a b rest, rustSplit ":" fragment = a :: b :: rest →
      parseCommentFragment cDe uDe fragment = decodePair cDe uDe a b) ∧
    (∀ a comment, cDe a = .ok comment →
      decodePair cDe uDe a "1~~9~~10~~11~~14~~15~~16~" =
        .ok { comment with user := Option.none }) ∧
    (∀ a b comment u, b ≠ "1~~9~~10~~11~~14~~15~~16~" →
      cDe a = .ok comment → uDe b = .ok u →
      decodePair cDe uDe a b = .ok { comment with user := Option.some u }) := by
  refine ⟨?_, ?_, ?_, ?_⟩
  · intro fragment hlen
    rcases hsplit : rustSplit ":" fragment with _ | ⟨x, _ | ⟨y, t⟩⟩
    · rw [hsplit] at hlen; cases hlen
    · unfold parseCommentFragment
      rw [hsplit]
    · rw [hsplit] at hlen
      simp [List.length_cons] at hlen
  · intro fragment a b rest h
    unfold parseCommentFragment
    rw [h]
    rfl
  · intro a comment h
    simp [decodePair, liftDe, h]
  · intro a b comment u hb hc hu
    simp [decodePair, liftDe, hc, hu, hb]
    rfl

/-- Witness for C3_pair_decoding at concrete fragments and parts. -/
theorem C3_pair_decoding_witness :
    (parseCommentFragment commentDeW userDeW "x" = .error ResponseError.UnexpectedFormat) ∧
    (parseCommentFragment commentDeW userDeW "x:u:v" = decodePair commentDeW userDeW "x" "u") ∧
    (decodePair commentDeW userDeW "x" "1~~9~~10~~11~~14~~15~~16~" =
      .ok ⟨Option.none, "x"⟩) ∧
    (decodePair commentDeW userDeW "x" "u" = .ok ⟨Option.some ⟨"u"⟩, "x"⟩) :=
  ⟨(C3_pair_decoding commentDeW userDeW).1 "x" (by decide),
   (C3_pair_decoding commentDeW userDeW).2.1 "x:u:v" "x" "u" ["v"] (by decide),
   (C3_pair_decoding commentDeW userDeW).2.2.1 "x" ⟨Option.none, "x"⟩ rfl,
   (C3_pair_decoding commentDeW userDeW).2.2.2 "x" "u" ⟨Option.none, "x"⟩ ⟨"u"⟩
     (by decide) rfl rfl⟩

/-- C3 as frozen is false: a fragment with two ':' separators does not
make the call return Unexpected-format; the third part is ignored and
the call succeeds. -/
theorem C3_pair_decoding_counterexample :
    (parse_get_gj_comments_response commentDeW userDeW "x:u:v" =
      .ok [⟨Option.some ⟨"u"⟩, "x"⟩]) ∧
    ((parse_get_gj_comments_response commentDeW userDeW "x:u:v").isOk = true) :=
  ⟨rfl, rfl⟩

/-- C4: every endpoint parser returns NotFound on the exact body "-1"
and IpBanned on the exact body "error code: 1005", for every record
decoder (so before any record parsing); every other body passes
check_response_errors. -/
theorem C4_reserved_error_bodies :
    (∀ (lDe : GJDecoder RawLevel) (cDe : GJDecoder Creator) (sDe : GJDecoder NewgroundsSong),
      parse_get_gj_levels_response lDe cDe sDe "-1" = .error ResponseError.NotFound ∧
      parse_get_gj_levels_response lDe cDe sDe "error code: 1005" = .error ResponseError.IpBanned) ∧
    (∀ (α : Type) (de : GJDecoder α),
      parse_download_gj_level_response de "-1" = .error ResponseError.NotFound ∧
      parse_download_gj_level_response de "error code: 1005" = .error ResponseError.IpBanned) ∧
    (∀ (α : Type) (de : GJDecoder α),
      parse_get_gj_user_info_response de "-1" = .error ResponseError.NotFound ∧
      parse_get_gj_user_info_response de "error code: 1005" = .error ResponseError.IpBanned) ∧
    (∀ (α : Type) (de : GJDecoder α),
      parse_get_gj_users_response de "-1" = .error ResponseError.NotFound ∧
      parse_get_gj_users_response de "error code: 1005" = .error ResponseError.IpBanned) ∧
    (∀ (cDe : GJDecoder LevelComment) (uDe : GJDecoder CommentUser),
      parse_get_gj_comments_response cDe uDe "-1" = .error ResponseError.NotFound ∧
      parse_get_gj_comments_response cDe uDe "error code: 1005" = .error ResponseError.IpBanned) ∧
    (∀ (pDe : GJDecoder ProfileComment),
      parse_get_gj_acccount_comments_response pDe "-1" = .error ResponseError.NotFound ∧
      parse_get_gj_acccount_comments_response pDe "error code: 1005" = .error ResponseError.IpBanned) ∧
    (∀ response : String, check_response_errors response = .ok () ↔
      (response ≠ "-1" ∧ response ≠ "error code: 1005")) := by
  refine ⟨fun _ _ _ => ⟨rfl, rfl⟩, fun _ _ => ⟨rfl, rfl⟩, fun _ _ => ⟨rfl, rfl⟩,
    fun _ _ => ⟨rfl, rfl⟩, fun _ _ => ⟨rfl, rfl⟩, fun _ => ⟨rfl, rfl⟩, ?_⟩
  intro response
  unfold check_response_errors
  by_cases h1 : response = "-1"
  · simp [h1]
  · by_cases h2 : response = "error code: 1005"
    · simp [h1, h2]
    · simp [h1, h2]

/-- C5: the cross-reference step of the level list is lenient: a level
whose embedded creator id matches no parsed creator and whose custom
song id matches no parsed song resolves with both relations empty, and
whenever the level fragment itself decodes, the fragment step succeeds
(the resolution itself can never fail). -/
theorem C5_lenient_crossref :
    (∀ (creators : List Creator) (songs : List NewgroundsSong) (level : RawLevel),
      (∀ c ∈ creators, c.user_id ≠ level.creator) →
      (∀ s ∈ songs, level.custom_song ≠ Option.some s.song_id) →
      resolveLevel creators songs level = ⟨Option.none, Option.none, level⟩) ∧
    (∀ (levelDe : GJDecoder RawLevel) (creators : List Creator)
      (songs : List NewgroundsSong) (fragment : String) (level : RawLevel),
      levelDe fragment = .ok level →
      levelFragmentStep levelDe creators songs fragment =
        .ok (resolveLevel creators songs level)) := by
  constructor
  · intro creators songs level h1 h2
    have hc : creators.find? (fun creator => creator.user_id == level.creator) =
        Option.none :=
      List.find?_eq_none.mpr (fun c hcmem => by simpa using h1 c hcmem)
    have hs : level.custom_song.bind
        (fun song_id => songs.find? (fun song => song.song_id == song_id)) =
        Option.none := by
      cases hcs : level.custom_song with
      | none => rfl
      | some sid =>
        simp only [Option.some_bind]
        refine List.find?_eq_none.mpr (fun s hsmem => ?_)
        have := h2 s hsmem
        rw [hcs] at this
        simp only [beq_iff_eq]
        intro heq
        exact this (by rw [heq])
    simp only [resolveLevel]
    rw [hc, hs]
  · intro levelDe creators songs fragment level h
    simp [levelFragmentStep, liftDe, h]

/-- Witness for C5_lenient_crossref: a level referencing creator id 1
and song id 2 against a creator list with id 5 and a song list with id
7 resolves both relations to None, and the fragment step succeeds. -/
theorem C5_lenient_crossref_witness :
    (resolveLevel [⟨5, "c"⟩] [⟨7, "s"⟩] ⟨1, Option.some 2, "L"⟩ =
      ⟨Option.none, Option.none, ⟨1, Option.some 2, "L"⟩⟩) ∧
    (levelFragmentStep levelDeW [⟨5, "c"⟩] [⟨7, "s"⟩] "L" =
      .ok (resolveLevel [⟨5, "c"⟩] [⟨7, "s"⟩] ⟨1, Option.none, "L"⟩)) :=
  ⟨C5_lenient_crossref.1 [⟨5, "c"⟩] [⟨7, "s"⟩] ⟨1, Option.some 2, "L"⟩
    (by decide) (by decide),
   C5_lenient_crossref.2 levelDeW [⟨5, "c"⟩] [⟨7, "s"⟩] "L" ⟨1, Option.none, "L"⟩ rfl⟩

/-- Serializing any supported field shape succeeds (the serializer can
only fail on the explicitly rejected shapes). -/
theorem serializeValue_supported_ok : ∀ (f : GJField), f.supported = true →
    ∀ s : SState, ∃ s', serializeValue s f = (s', .ok ())
  | .bool v, _, s => ⟨append s (if v then ['1'] else ['0']), rfl⟩
  | .int v, _, s => ⟨append_integer s v, rfl⟩
  | .float m e, _, s => ⟨append_display s (rustDisplayDyadic m e), rfl⟩
  | .char v, _, s => ⟨append s [v], rfl⟩
  | .str v, _, s => ⟨append s v, rfl⟩
  | .bytes v, _, s => ⟨{ s with output := s.output ++ base64UrlSafe v }, rfl⟩
  | .none, _, s => ⟨{ s with output := s.output ++ s.delimiter }, rfl⟩
  | .some f, h, s => serializeValue_supported_ok f h s
  | .unsupported _, h, _ => nomatch h

/-- A record session over fields of supported shapes succeeds. -/
theorem serializeFields_supported_ok :
    ∀ (l : List (List Char × GJField)) (s : SState),
    (∀ kv ∈ l, kv.2.supported = true) →
    ∃ s', serializeFields s l = (s', .ok ()) := by
  intro l
  induction l with
  | nil => intro s _; exact ⟨s, rfl⟩
  | cons kv rest ih =>
    intro s h
    have hkv := h kv (List.mem_cons_self kv rest)
    have hfield : ∃ s1, serialize_field s kv.1 kv.2 = (s1, .ok ()) := by
      unfold serialize_field
      by_cases hm : s.map_like = true
      · simp only [hm, if_true]
        exact serializeValue_supported_ok kv.2 hkv (append s kv.1)
      · simp only [hm, if_false, Bool.false_eq_true]
        exact serializeValue_supported_ok kv.2 hkv s
    rcases hfield with ⟨s1, hs1⟩
    rcases ih s1 (fun kv' h' => h kv' (List.mem_cons_of_mem kv h')) with ⟨s2, hs2⟩
    refine ⟨s2, ?_⟩
    simp only [serializeFields]
    rw [hs1]
    exact hs2

/-- C9: to_string can never surface an error: for every request whose
fields use only supported shapes - in particular for every UserRequest
and UserSearchRequest value - serialization succeeds and the unwrap's
panic branch is unreachable; a field of an unsupported shape would hit
the panic branch instead of returning an error. -/
theorem C9_to_string_infallible :
    (∀ fields : List (List Char × GJField),
      (∀ kv ∈ fields, kv.2.supported = true) → (to_string fields).isSome = true) ∧
    (∀ r : UserRequest, (to_string (userRequestFields r)).isSome = true) ∧
    (∀ r : UserSearchRequest, (to_string (userSearchRequestFields r)).isSome = true) ∧
    (∀ k : UnsupportedKind, to_string [("base".data, GJField.unsupported k)] =
      Option.none) := by
  have main : ∀ fields : List (List Char × GJField),
      (∀ kv ∈ fields, kv.2.supported = true) → (to_string fields).isSome = true := by
    intro fields h
    rcases serializeFields_supported_ok fields (newSerializer "&".data true) h
      with ⟨s', hs⟩
    unfold to_string
    rw [hs]
    rfl
  refine ⟨main, ?_, ?_, ?_⟩
  · intro r
    apply main
    intro kv hkv
    simp only [userRequestFields, List.mem_cons, List.not_mem_nil, or_false] at hkv
    rcases hkv with rfl | rfl | rfl | rfl <;> rfl
  · intro r
    apply main
    intro kv hkv
    simp only [userSearchRequestFields, List.mem_cons, List.not_mem_nil, or_false] at hkv
    rcases hkv with rfl | rfl | rfl | rfl | rfl | rfl <;> rfl
  · intro k
    cases k <;> rfl

/-- Witness for C9_to_string_infallible at a concrete field list and a
concrete UserRequest. -/
theorem C9_to_string_infallible_witness :
    ((to_string [("a".data, GJField.bool true)]).isSome = true) ∧
    ((to_string (userRequestFields ⟨GD_22, 42⟩)).isSome = true) :=
  ⟨C9_to_string_infallible.1 [("a".data, GJField.bool true)] (by decide),
   C9_to_string_infallible.2.1 ⟨GD_22, 42⟩⟩

/-- C10: to_url depends on none of the request's fields: any two
UserRequest values (and any two UserSearchRequest values) yield the same
URL under the same configuration, and the result is always the
configured base URL concatenated with the fixed endpoint constant. -/
theorem C10_to_url_ignores_fields :
    (∀ (config : Option String) (r₁ r₂ : UserRequest),
      UserRequest.to_url config r₁ = UserRequest.to_url config r₂) ∧
    (∀ (config : Option String) (r : UserRequest),
      UserRequest.to_url config r = endpoint_base_url config ++ "getGJUserInfo20.php") ∧
    (∀ (config : Option String) (r₁ r₂ : UserSearchRequest),
      UserSearchRequest.to_url config r₁ = UserSearchRequest.to_url config r₂) ∧
    (∀ (config : Option String) (r : UserSearchRequest),
      UserSearchRequest.to_url config r = endpoint_base_url config ++ "getGJUsers20.php") :=
  ⟨fun _ _ _ => rfl, fun _ _ => rfl, fun _ _ _ => rfl, fun _ _ => rfl⟩
